import Mathlib

/-!
Verification development for the HDF5 event-set module (`H5ES.c`).

The public entry points (`H5ESget_count`, `H5ESget_op_counter`, `H5ESwait`,
`H5ESget_err_status`, `H5ESget_err_count`, `H5ESget_err_info`, `H5ESclose`)
are embedded directly from `H5ES.c`.  The internal package routines they call
(`H5ES__create`, `H5ES__wait`, `H5ES__get_err_info`, `H5ES__close`,
`H5ES__list_count`, the insert path) live in `H5ESint.c` / `H5ESlist.c`,
which are not part of the sources at hand; those are modelled from the
design document (sections 3, 4.3, 4.4, 4.5).

Modelling conventions:
* machine counters (`uint64_t op_counter`, `size_t` lengths, the `uint64_t`
  nanosecond timeout) are `Nat`;
* a C out-pointer is represented by a `Bool` flag saying whether the caller
  passed `NULL`, and a successful call returns `Option` values: `none` means
  the callee skipped the store because the pointer was `NULL`;
* `herr_t` return codes become `Except H5ES_err`, with the error kinds named
  as in the design document (`BAD_HANDLE` is what `H5ES.c` raises as
  `H5E_ARGS`/`H5E_BADTYPE` on an identifier that is not an event set,
  `BAD_VALUE` is `H5E_BADVALUE`, and so on);
* the asynchronous runtime consumed by the wait engine is a deterministic
  oracle mapping (sweep index, record counter) to the poll outcome and the
  amount of time the poll would like to consume; a structural runtime error
  is the oracle answering `none`.
-/

/-- Completion state of one asynchronous operation record
(`H5ES_status_t`: `H5ES_STATUS_IN_PROGRESS / SUCCEED / FAIL / CANCELED`). -/
inductive H5ES_op_status where
  | in_progress
  | succeed
  | fail
  | cancel
deriving DecidableEq

/-- One operation record of an event set.  Modelled from the spec:
the `H5ES_event_t` record type is defined in the package header, not in the
sources at hand; the fields follow section 3 of the design document
(`counter`, `api_name`, `app_site` triple, `app_version`, `timestamp`,
`token`, `status`; the intrusive `prev`/`next` links are represented by
membership in a Lean list). -/
structure H5ES_event where
  counter : Nat
  api_name : String
  app_file : String
  app_func : String
  app_line : Nat
  app_version : String
  timestamp : Nat
  token : Nat
  status : H5ES_op_status
deriving DecidableEq

/-- An event set.  Modelled from the spec: the `H5ES_t` aggregate is defined
in the package header, not in the sources at hand; it owns the `active` and
`failed` event lists, the `op_counter` to be assigned to the next appended
record, and the latched `err_occurred` flag (design document section 3,
"Event Set"). -/
structure H5ES_t where
  active : List H5ES_event
  failed : List H5ES_event
  op_counter : Nat
  err_occurred : Bool
deriving DecidableEq

/-- Error kinds surfaced by the event-set core, named as in section 7 of the
design document.  `badHandle` is raised by `H5ES.c` as `H5E_BADTYPE`
("invalid event set identifier"), `badValue` as `H5E_BADVALUE`, `busy` is
the close-with-live-records refusal, `cantWait` / `cantGet` wrap failures of
the internal wait / error-info engines. -/
inductive H5ES_err where
  | badHandle
  | badValue
  | alloc
  | busy
  | cantWait
  | cantGet
  | cantRegister
deriving DecidableEq

/-- Modelled from the spec: `H5ES__create` (in `H5ESint.c`, not in the
sources at hand) returns a fresh event set: both lists empty, operation
counter 0, error flag false (design document section 3, "Lifecycle"). -/
def H5ES__create : H5ES_t :=
  { active := [], failed := [], op_counter := 0, err_occurred := false }

/-- Modelled from the spec: `H5ES__list_count` (in `H5ESint.c`, not in the
sources at hand) returns the current length of an event list. -/
def H5ES__list_count (l : List H5ES_event) : Nat :=
  l.length

/-- Modelled from the spec: the append half of the insert path
(`H5ES__insert` in `H5ESint.c`, not in the sources at hand).  Appending a
record assigns it the set's current `op_counter`, increments the counter,
marks the record in-progress and places it at the tail of the `active` list
(design document sections 3 and 4.3). -/
def H5ES_append (es : H5ES_t) (r : H5ES_event) : H5ES_t :=
  { es with
    active := es.active ++ [{ r with counter := es.op_counter, status := .in_progress }],
    op_counter := es.op_counter + 1 }

/-- Iterated append, in list order. -/
def H5ES_append_all (es : H5ES_t) (rs : List H5ES_event) : H5ES_t :=
  rs.foldl H5ES_append es

/-- One entry of the caller-visible error-information array
(`H5ES_err_info_t`), laid out as in section 6 of the design document; the
diagnostic stack extracted from the record's token is abstracted as the
token value itself. -/
structure H5ES_err_info_t where
  api_name : String
  app_file : String
  app_func : String
  app_line : Nat
  app_version : String
  op_counter : Nat
  timestamp : Nat
  status : H5ES_op_status
  diag : Nat
deriving DecidableEq

/-- Copy the diagnostic payload of one failed record into a caller-owned
error-information entry. -/
def H5ES_event.toErrInfo (r : H5ES_event) : H5ES_err_info_t :=
  { api_name := r.api_name, app_file := r.app_file, app_func := r.app_func,
    app_line := r.app_line, app_version := r.app_version,
    op_counter := r.counter, timestamp := r.timestamp, status := r.status,
    diag := r.token }

/-- Modelled from the spec: `H5ES__get_err_info` (in `H5ESint.c`, not in the
sources at hand).  It walks the `failed` list in insertion order, extracts
up to `num_err_info` entries, unlinks and frees each extracted record, and
reports the number cleared.  The error flag is reset to `false` exactly when
`cleared == count(failed_before) && cleared > 0 && remaining_failed == 0`
(design document section 4.5).  Returns (updated set, filled buffer entries,
number cleared). -/
def H5ES__get_err_info (es : H5ES_t) (num_err_info : Nat) :
    H5ES_t × List H5ES_err_info_t × Nat :=
  let drained := es.failed.take num_err_info
  let rest := es.failed.drop num_err_info
  let cleared := drained.length
  let err2 : Bool :=
    if cleared = es.failed.length ∧ 0 < cleared ∧ rest = [] then false
    else es.err_occurred
  ({ es with failed := rest, err_occurred := err2 },
   drained.map H5ES_event.toErrInfo, cleared)

/-- Modelled from the spec: `H5ES__close` (in `H5ESint.c`, not in the
sources at hand), the free callback run when the identifier's reference
count reaches zero.  It refuses with `BUSY` if the `active` list is
non-empty; otherwise it releases the failed list and frees the set (design
document sections 4.3 and 5, "Close discipline"). -/
def H5ES__close (es : H5ES_t) : Except H5ES_err Unit :=
  if es.active.isEmpty then .ok () else .error .busy

/-- The asynchronous runtime consumed by the wait engine, as a deterministic
oracle: given the sweep index and a record's counter it yields the poll
outcome and the time (ns) the poll would like to consume, or `none` for a
structural runtime error (design document section 6, "Async runtime
contract"). -/
abbrev H5ES_oracle := Nat → Nat → Option (H5ES_op_status × Nat)

/-- Accumulator of one sweep of the wait engine over the `active` list. -/
structure H5ES_sweep_st where
  keep : List H5ES_event
  failedNew : List H5ES_event
  remaining : Nat
  consumed : Nat
  anyFailed : Bool
  anySucceed : Bool
  polls : List (Nat × Nat)
deriving DecidableEq

/-- Modelled from the spec: one sweep of the wait engine (design document
section 4.4, step 2b).  Records are polled in insertion order; each poll is
issued with the whole remaining budget and consumes at most that budget
(`min` of the runtime's demand and the budget; a zero budget is a
non-blocking check).  `in_progress` keeps the record, `succeed` frees it,
`fail`/`cancel` set the record's status and move it to the new-failures
list.  `polls` logs (record counter, budget offered).  A structural runtime
error aborts the sweep. -/
def H5ES_sweep (oracle : H5ES_oracle) (sweepIdx : Nat) :
    List H5ES_event → H5ES_sweep_st → Option H5ES_sweep_st
  | [], st => some st
  | r :: rest, st =>
    match oracle sweepIdx r.counter with
    | none => none
    | some (outcome, want) =>
      let used := min want st.remaining
      let st' : H5ES_sweep_st :=
        { st with remaining := st.remaining - used, consumed := st.consumed + used,
                  polls := st.polls ++ [(r.counter, st.remaining)] }
      match outcome with
      | .in_progress =>
          H5ES_sweep oracle sweepIdx rest { st' with keep := st'.keep ++ [r] }
      | .succeed =>
          H5ES_sweep oracle sweepIdx rest { st' with anySucceed := true }
      | .fail =>
          H5ES_sweep oracle sweepIdx rest
            { st' with failedNew := st'.failedNew ++ [{ r with status := .fail }],
                       anyFailed := true }
      | .cancel =>
          H5ES_sweep oracle sweepIdx rest
            { st' with failedNew := st'.failedNew ++ [{ r with status := .cancel }],
                       anyFailed := true }

/-- Outcome of the wait engine: the updated set, the two values stored
through the out-pointers, and instrumentation (total time consumed, number
of sweeps, the log of polls with the budget each was offered, and whether
the engine stopped at one of its stop conditions). -/
structure H5ES_wait_result where
  es : H5ES_t
  num_in_progress : Nat
  op_failed : Bool
  elapsed : Nat
  sweeps : Nat
  polls : List (Nat × Nat)
  finished : Bool
deriving DecidableEq

/-- Build the engine's stop answer: `num_in_progress` is the count of the
(possibly stale) `active` list, `op_failed` is "any record failed during
this call, or the latched flag is set with failures pending" (design
document section 4.4, step 3). -/
def H5ES_stop (es : H5ES_t) (anyFailedEver : Bool) (elapsed sweeps : Nat)
    (polls : List (Nat × Nat)) (finished : Bool) : H5ES_wait_result :=
  { es := es, num_in_progress := es.active.length,
    op_failed := anyFailedEver || (es.err_occurred && !es.failed.isEmpty),
    elapsed := elapsed, sweeps := sweeps, polls := polls, finished := finished }

/-- Modelled from the spec: the deadline loop of the wait engine (design
document section 4.4, step 2).  Each iteration sweeps the whole `active`
list, transplants new failures into `failed` while latching the error flag,
then stops if a failure was observed (fast-fail), if the active list is
empty, or if the budget is exhausted and the sweep observed no successful
completion either; otherwise it loops on the remaining budget.  `fuel`
bounds the recursion; `finished := false` marks fuel exhaustion. -/
def H5ES_wait_loop (oracle : H5ES_oracle) :
    Nat → H5ES_t → Nat → Nat → Nat → List (Nat × Nat) → Bool →
    Option H5ES_wait_result
  | 0, es, _, elapsed, sweeps, polls, anyFailedEver =>
      some (H5ES_stop es anyFailedEver elapsed sweeps polls false)
  | fuel + 1, es, remaining, elapsed, sweeps, polls, anyFailedEver =>
    match H5ES_sweep oracle sweeps es.active
        { keep := [], failedNew := [], remaining := remaining, consumed := 0,
          anyFailed := false, anySucceed := false, polls := polls } with
    | none => none
    | some st =>
      let es' : H5ES_t :=
        { es with active := st.keep, failed := es.failed ++ st.failedNew,
                  err_occurred := es.err_occurred || st.anyFailed }
      let elapsed' := elapsed + st.consumed
      let anyF := anyFailedEver || st.anyFailed
      if st.anyFailed then
        some (H5ES_stop es' anyF elapsed' (sweeps + 1) st.polls true)
      else if es'.active.isEmpty then
        some (H5ES_stop es' anyF elapsed' (sweeps + 1) st.polls true)
      else if st.remaining = 0 && !st.anySucceed then
        some (H5ES_stop es' anyF elapsed' (sweeps + 1) st.polls true)
      else
        H5ES_wait_loop oracle fuel es' st.remaining elapsed' (sweeps + 1) st.polls anyF

/-- Modelled from the spec: `H5ES__wait` (in `H5ESint.c`, not in the sources
at hand): run the deadline loop with the full timeout as the initial shared
budget.  The supplied fuel exceeds any number of iterations the loop can
take, since every continued iteration consumes budget or removes a record. -/
def H5ES__wait (es : H5ES_t) (timeout : Nat) (oracle : H5ES_oracle) :
    Option H5ES_wait_result :=
  H5ES_wait_loop oracle (timeout + es.active.length + 1) es timeout 0 0 [] false

/-- Modelled from the spec: an entry of the identifier registry (an external
collaborator of the core): a registered object either is an event set or has
some other identifier type. -/
inductive H5I_obj where
  | eventset (es : H5ES_t)
  | otherType
deriving DecidableEq

/-- Modelled from the spec: the identifier registry, an association of
public integer identifiers to registered objects. -/
abbrev H5I_registry := List (Int × H5I_obj)

/-- Find the object registered under an identifier. -/
def H5I_find (reg : H5I_registry) (es_id : Int) : Option H5I_obj :=
  match reg with
  | [] => none
  | (k, v) :: t => if k = es_id then some v else H5I_find t es_id

/-- Modelled from the spec: `H5I_object_verify es_id H5I_EVENTSET` — the
event set registered under the identifier, or `none` when the identifier is
absent or names an object of another type. -/
def H5I_object_verify (reg : H5I_registry) (es_id : Int) : Option H5ES_t :=
  match H5I_find reg es_id with
  | some (H5I_obj.eventset es) => some es
  | _ => none

/-- Replace the event set registered under an identifier. -/
def H5I_update (reg : H5I_registry) (es_id : Int) (es : H5ES_t) : H5I_registry :=
  match reg with
  | [] => []
  | (k, v) :: t =>
      if k = es_id then (k, H5I_obj.eventset es) :: H5I_update t es_id es
      else (k, v) :: H5I_update t es_id es

/-- Drop an identifier from the registry (the object it named is freed). -/
def H5I_remove (reg : H5I_registry) (es_id : Int) : H5I_registry :=
  match reg with
  | [] => []
  | (k, v) :: t => if k = es_id then H5I_remove t es_id else (k, v) :: H5I_remove t es_id

/-- `H5ESget_count` (`H5ES.c`): verify the identifier, then, only if the
out-pointer is non-NULL, store the length of the `active` list. -/
def H5ESget_count (reg : H5I_registry) (es_id : Int) (count_is_null : Bool) :
    H5I_registry × Except H5ES_err (Option Nat) :=
  match H5I_object_verify reg es_id with
  | none => (reg, .error .badHandle)
  | some es =>
      (reg, .ok (if count_is_null then none else some (H5ES__list_count es.active)))

/-- `H5ESget_op_counter` (`H5ES.c`): verify the identifier, then, only if
the out-pointer is non-NULL, store the set's operation counter. -/
def H5ESget_op_counter (reg : H5I_registry) (es_id : Int) (op_counter_is_null : Bool) :
    H5I_registry × Except H5ES_err (Option Nat) :=
  match H5I_object_verify reg es_id with
  | none => (reg, .error .badHandle)
  | some es =>
      (reg, .ok (if op_counter_is_null then none else some es.op_counter))

/-- `H5ESget_err_status` (`H5ES.c`): verify the identifier, then, only if
the out-pointer is non-NULL, store the latched error flag. -/
def H5ESget_err_status (reg : H5I_registry) (es_id : Int) (err_status_is_null : Bool) :
    H5I_registry × Except H5ES_err (Option Bool) :=
  match H5I_object_verify reg es_id with
  | none => (reg, .error .badHandle)
  | some es =>
      (reg, .ok (if err_status_is_null then none else some es.err_occurred))

/-- `H5ESget_err_count` (`H5ES.c`): verify the identifier, then, only if the
out-pointer is non-NULL, store the length of the `failed` list when the
error flag is set and 0 otherwise.  No active operation is polled. -/
def H5ESget_err_count (reg : H5I_registry) (es_id : Int) (num_errs_is_null : Bool) :
    H5I_registry × Except H5ES_err (Option Nat) :=
  match H5I_object_verify reg es_id with
  | none => (reg, .error .badHandle)
  | some es =>
      (reg, .ok (if num_errs_is_null then none
                 else some (if es.err_occurred then H5ES__list_count es.failed else 0)))

/-- `H5ESwait` (`H5ES.c`): verify the identifier, reject NULL
`num_in_progress` and `op_failed` out-pointers with `BAD_VALUE`, then run
the wait engine; an engine failure is reported as `CANT_WAIT`.  Per-record
completion outcomes never influence the return code. -/
def H5ESwait (reg : H5I_registry) (es_id : Int) (timeout : Nat)
    (num_in_progress_is_null op_failed_is_null : Bool) (oracle : H5ES_oracle) :
    H5I_registry × Except H5ES_err (Nat × Bool) :=
  match H5I_object_verify reg es_id with
  | none => (reg, .error .badHandle)
  | some es =>
    if num_in_progress_is_null then (reg, .error .badValue)
    else if op_failed_is_null then (reg, .error .badValue)
    else
      match H5ES__wait es timeout oracle with
      | none => (reg, .error .cantWait)
      | some r => (H5I_update reg es_id r.es, .ok (r.num_in_progress, r.op_failed))

/-- `H5ESget_err_info` (`H5ES.c`): verify the identifier, reject a
zero-length array, a NULL array pointer and a NULL cleared-count pointer
with `BAD_VALUE`, then run the extraction engine. -/
def H5ESget_err_info (reg : H5I_registry) (es_id : Int) (num_err_info : Nat)
    (err_info_is_null num_cleared_is_null : Bool) :
    H5I_registry × Except H5ES_err (List H5ES_err_info_t × Nat) :=
  match H5I_object_verify reg es_id with
  | none => (reg, .error .badHandle)
  | some es =>
    if num_err_info = 0 then (reg, .error .badValue)
    else if err_info_is_null then (reg, .error .badValue)
    else if num_cleared_is_null then (reg, .error .badValue)
    else
      let r := H5ES__get_err_info es num_err_info
      (H5I_update reg es_id r.1, .ok (r.2.1, r.2.2))

/-- `H5ESclose` (`H5ES.c`): reject an identifier that is not an event set,
then drop the application reference; at reference count zero the registry
runs the `H5ES__close` free callback, whose `BUSY` refusal propagates and
leaves the identifier registered. -/
def H5ESclose (reg : H5I_registry) (es_id : Int) :
    H5I_registry × Except H5ES_err Unit :=
  match H5I_object_verify reg es_id with
  | none => (reg, .error .badHandle)
  | some es =>
    match H5ES__close es with
    | .error e => (reg, .error e)
    | .ok _ => (H5I_remove reg es_id, .ok ())

/-! ## Registry lemmas -/

/-- Updating the object registered under a present identifier makes later
lookup return the new event set. -/
theorem H5I_update_find (reg : H5I_registry) (es_id : Int) (es2 : H5ES_t)
    (h : ∃ v, H5I_find reg es_id = some v) :
    H5I_find (H5I_update reg es_id es2) es_id = some (H5I_obj.eventset es2) := by
  induction reg with
  | nil => obtain ⟨v, hv⟩ := h; simp [H5I_find] at hv
  | cons p t ih =>
    obtain ⟨k, v⟩ := p
    by_cases hk : k = es_id
    · simp [H5I_update, H5I_find, hk]
    · obtain ⟨w, hw⟩ := h
      simp only [H5I_find, if_neg hk] at hw
      have := ih ⟨w, hw⟩
      simpa [H5I_update, H5I_find, hk] using this

/-- After removing an identifier, lookup of that identifier fails. -/
theorem H5I_remove_find (reg : H5I_registry) (es_id : Int) :
    H5I_find (H5I_remove reg es_id) es_id = none := by
  induction reg with
  | nil => rfl
  | cons p t ih =>
    obtain ⟨k, v⟩ := p
    by_cases hk : k = es_id
    · simpa [H5I_remove, hk] using ih
    · simpa [H5I_remove, H5I_find, hk] using ih

/-- Updating the object registered under a verified identifier makes later
verification return the new event set. -/
theorem H5I_object_verify_update (reg : H5I_registry) (es_id : Int)
    (es es2 : H5ES_t) (h : H5I_object_verify reg es_id = some es) :
    H5I_object_verify (H5I_update reg es_id es2) es_id = some es2 := by
  have hl : ∃ v, H5I_find reg es_id = some v := by
    unfold H5I_object_verify at h
    cases hx : H5I_find reg es_id with
    | none => rw [hx] at h; simp at h
    | some v => exact ⟨v, rfl⟩
  simp [H5I_object_verify, H5I_update_find reg es_id es2 hl]

/-- After removing an identifier, verification of that identifier fails. -/
theorem H5I_object_verify_remove (reg : H5I_registry) (es_id : Int) :
    H5I_object_verify (H5I_remove reg es_id) es_id = none := by
  simp [H5I_object_verify, H5I_remove_find reg es_id]

/-- Sample operation record used by concrete scenarios. -/
def H5ES_mk_event (c : Nat) : H5ES_event :=
  { counter := c, api_name := "H5Dwrite", app_file := "app.c", app_func := "main",
    app_line := 42, app_version := "1.14.0", timestamp := 1000 + c, token := 500 + c,
    status := .in_progress }

/-! ## Claims about argument validation and the read-only accessors -/

/-- C8: every public event-set operation (get_count, get_op_counter, wait,
get_err_status, get_err_count, get_err_info, close), when passed an
identifier that does not denote an event set, fails with BAD_HANDLE and
performs no other action: the registry is returned unchanged and no value is
produced. -/
theorem claim_C8 (reg : H5I_registry) (es_id : Int)
    (h : H5I_object_verify reg es_id = none) :
    (∀ b, H5ESget_count reg es_id b = (reg, .error .badHandle)) ∧
    (∀ b, H5ESget_op_counter reg es_id b = (reg, .error .badHandle)) ∧
    (∀ t b1 b2 oracle, H5ESwait reg es_id t b1 b2 oracle = (reg, .error .badHandle)) ∧
    (∀ b, H5ESget_err_status reg es_id b = (reg, .error .badHandle)) ∧
    (∀ b, H5ESget_err_count reg es_id b = (reg, .error .badHandle)) ∧
    (∀ n b1 b2, H5ESget_err_info reg es_id n b1 b2 = (reg, .error .badHandle)) ∧
    H5ESclose reg es_id = (reg, .error .badHandle) := by
  refine ⟨?_, ?_, ?_, ?_, ?_, ?_, ?_⟩ <;>
    intros <;>
    simp [H5ESget_count, H5ESget_op_counter, H5ESwait, H5ESget_err_status,
          H5ESget_err_count, H5ESget_err_info, H5ESclose, h]

/-- Closed instance of C8: an identifier registered with a non-event-set
type is rejected with BAD_HANDLE by get_count and by close. -/
theorem claim_C8_witness :
    H5I_object_verify [((1 : Int), H5I_obj.otherType)] 1 = none ∧
    H5ESget_count [((1 : Int), H5I_obj.otherType)] 1 false =
      ([((1 : Int), H5I_obj.otherType)], .error .badHandle) ∧
    H5ESclose [((1 : Int), H5I_obj.otherType)] 1 =
      ([((1 : Int), H5I_obj.otherType)], .error .badHandle) :=
  ⟨rfl, (claim_C8 [((1 : Int), H5I_obj.otherType)] 1 rfl).1 false,
    (claim_C8 [((1 : Int), H5I_obj.otherType)] 1 rfl).2.2.2.2.2.2⟩

/-- C10: for the read-only accessors, a NULL out-pointer is not an error:
with a valid event-set identifier each call succeeds, writes nothing, and
leaves the registry unchanged. -/
theorem claim_C10 (reg : H5I_registry) (es_id : Int) (es : H5ES_t)
    (h : H5I_object_verify reg es_id = some es) :
    H5ESget_count reg es_id true = (reg, .ok none) ∧
    H5ESget_op_counter reg es_id true = (reg, .ok none) ∧
    H5ESget_err_status reg es_id true = (reg, .ok none) ∧
    H5ESget_err_count reg es_id true = (reg, .ok none) := by
  simp [H5ESget_count, H5ESget_op_counter, H5ESget_err_status,
        H5ESget_err_count, h]

/-- Closed instance of C10 on a freshly created event set. -/
theorem claim_C10_witness :
    H5ESget_count [((1 : Int), H5I_obj.eventset H5ES__create)] 1 true =
      ([((1 : Int), H5I_obj.eventset H5ES__create)], .ok none) ∧
    H5ESget_err_count [((1 : Int), H5I_obj.eventset H5ES__create)] 1 true =
      ([((1 : Int), H5I_obj.eventset H5ES__create)], .ok none) :=
  ⟨(claim_C10 [((1 : Int), H5I_obj.eventset H5ES__create)] 1 H5ES__create rfl).1,
   (claim_C10 [((1 : Int), H5I_obj.eventset H5ES__create)] 1 H5ES__create rfl).2.2.2⟩

/-- C9: H5ESwait validates its arguments before invoking the wait engine:
on an invalid identifier or a NULL out-pointer it fails (with BAD_HANDLE
resp. BAD_VALUE), the registry — hence the event set's active list, failed
list, counter and error flag — is unchanged, and the outcome is independent
of the asynchronous runtime, i.e. no operation is polled. -/
theorem claim_C9 (reg : H5I_registry) (es_id : Int) (t : Nat) (b1 b2 : Bool)
    (h : H5I_object_verify reg es_id = none ∨ b1 = true ∨ b2 = true) :
    ∀ oracle : H5ES_oracle,
      (H5ESwait reg es_id t b1 b2 oracle).1 = reg ∧
      (∃ e, (H5ESwait reg es_id t b1 b2 oracle).2 = .error e ∧
        (e = H5ES_err.badHandle ∨ e = H5ES_err.badValue)) ∧
      (∀ oracle2 : H5ES_oracle,
        H5ESwait reg es_id t b1 b2 oracle2 = H5ESwait reg es_id t b1 b2 oracle) := by
  intro oracle
  rcases h with h | h | h
  · refine ⟨by simp [H5ESwait, h], ⟨.badHandle, by simp [H5ESwait, h], Or.inl rfl⟩,
      fun oracle2 => by simp [H5ESwait, h]⟩
  · cases hv : H5I_object_verify reg es_id with
    | none =>
        refine ⟨by simp [H5ESwait, hv], ⟨.badHandle, by simp [H5ESwait, hv], Or.inl rfl⟩,
          fun oracle2 => by simp [H5ESwait, hv]⟩
    | some es =>
        refine ⟨by simp [H5ESwait, hv, h], ⟨.badValue, by simp [H5ESwait, hv, h], Or.inr rfl⟩,
          fun oracle2 => by simp [H5ESwait, hv, h]⟩
  · cases hv : H5I_object_verify reg es_id with
    | none =>
        refine ⟨by simp [H5ESwait, hv], ⟨.badHandle, by simp [H5ESwait, hv], Or.inl rfl⟩,
          fun oracle2 => by simp [H5ESwait, hv]⟩
    | some es =>
        cases b1 with
        | false =>
            refine ⟨by simp [H5ESwait, hv, h], ⟨.badValue, by simp [H5ESwait, hv, h], Or.inr rfl⟩,
              fun oracle2 => by simp [H5ESwait, hv, h]⟩
        | true =>
            refine ⟨by simp [H5ESwait, hv], ⟨.badValue, by simp [H5ESwait, hv], Or.inr rfl⟩,
              fun oracle2 => by simp [H5ESwait, hv]⟩

/-- Closed instance of C9: waiting with a NULL num_in_progress pointer on a
valid event set fails with BAD_VALUE and leaves the registry unchanged. -/
theorem claim_C9_witness :
    (H5ESwait [((1 : Int), H5I_obj.eventset H5ES__create)] 1 5 true false
        (fun _ _ => some (.in_progress, 1))).1 =
      [((1 : Int), H5I_obj.eventset H5ES__create)] ∧
    (∃ e, (H5ESwait [((1 : Int), H5I_obj.eventset H5ES__create)] 1 5 true false
        (fun _ _ => some (.in_progress, 1))).2 = .error e ∧
      (e = H5ES_err.badHandle ∨ e = H5ES_err.badValue)) :=
  ⟨(claim_C9 _ 1 5 true false (Or.inr (Or.inl rfl)) _).1,
   (claim_C9 _ 1 5 true false (Or.inr (Or.inl rfl)) _).2.1⟩

/-- C4: get_err_info fails with BAD_VALUE whenever (reaching its argument
checks with a valid identifier) it is passed a zero-length info array, a
NULL buffer pointer, or a NULL cleared pointer; the registry is unchanged,
so no failed record is drained and the event set's state is untouched. -/
theorem claim_C4 (reg : H5I_registry) (es_id : Int) (es : H5ES_t)
    (n : Nat) (b1 b2 : Bool)
    (h : H5I_object_verify reg es_id = some es)
    (hbad : n = 0 ∨ b1 = true ∨ b2 = true) :
    H5ESget_err_info reg es_id n b1 b2 = (reg, .error .badValue) ∧
    H5I_object_verify (H5ESget_err_info reg es_id n b1 b2).1 es_id = some es := by
  have heq : H5ESget_err_info reg es_id n b1 b2 = (reg, .error .badValue) := by
    rcases hbad with h0 | h0 | h0
    · simp [H5ESget_err_info, h, h0]
    · by_cases hn : n = 0 <;> simp [H5ESget_err_info, h, hn, h0]
    · by_cases hn : n = 0
      · simp [H5ESget_err_info, h, hn]
      · cases b1 <;> simp [H5ESget_err_info, h, hn, h0]
  exact ⟨heq, by rw [heq]; exact h⟩

/-- Event set with one pending failed record, for concrete scenarios. -/
def H5ES_one_failed_set : H5ES_t :=
  { active := [], failed := [{ H5ES_mk_event 0 with status := .fail }],
    op_counter := 1, err_occurred := true }

/-- Registry holding `H5ES_one_failed_set` under identifier 2. -/
def H5ES_one_failed_reg : H5I_registry :=
  [((2 : Int), H5I_obj.eventset H5ES_one_failed_set)]

/-- Closed instance of C4: a zero-length info array is rejected with
BAD_VALUE even though a failed record is pending, and the registry is
unchanged. -/
theorem claim_C4_witness :
    H5ESget_err_info H5ES_one_failed_reg 2 0 false false =
      (H5ES_one_failed_reg, .error .badValue) :=
  (claim_C4 H5ES_one_failed_reg 2 H5ES_one_failed_set 0 false false rfl
    (Or.inl rfl)).1

/-- C5: err_count returns the length of the failed list when the error flag
is set and 0 when it is clear; the registry is unchanged, and the value is
independent of the active list — no active operation is waited on or
polled (the accessor does not even consult the asynchronous runtime). -/
theorem claim_C5 (reg : H5I_registry) (es_id : Int) (es : H5ES_t)
    (h : H5I_object_verify reg es_id = some es) :
    H5ESget_err_count reg es_id false =
      (reg, .ok (some (if es.err_occurred then es.failed.length else 0))) ∧
    (∀ (reg2 : H5I_registry) (es_id2 : Int) (es2 : H5ES_t),
      H5I_object_verify reg2 es_id2 = some es2 →
      es2.failed = es.failed → es2.err_occurred = es.err_occurred →
      (H5ESget_err_count reg2 es_id2 false).2 = (H5ESget_err_count reg es_id false).2) := by
  constructor
  · simp [H5ESget_err_count, H5ES__list_count, h]
  · intro reg2 es_id2 es2 h2 hf he
    simp [H5ESget_err_count, H5ES__list_count, h, h2, hf, he]

/-- Event set with two failed records, one live record and the flag
latched, for concrete scenarios. -/
def H5ES_two_failed_set : H5ES_t :=
  { active := [H5ES_mk_event 2],
    failed := [{ H5ES_mk_event 0 with status := .fail },
               { H5ES_mk_event 1 with status := .cancel }],
    op_counter := 3, err_occurred := true }

/-- Registry holding `H5ES_two_failed_set` under identifier 5. -/
def H5ES_two_failed_reg : H5I_registry :=
  [((5 : Int), H5I_obj.eventset H5ES_two_failed_set)]

/-- Closed instance of C5: with the flag latched and two failed records the
reported error count is 2. -/
theorem claim_C5_witness :
    H5ESget_err_count H5ES_two_failed_reg 5 false =
      (H5ES_two_failed_reg, .ok (some 2)) := by
  have h := (claim_C5 H5ES_two_failed_reg 5 H5ES_two_failed_set rfl).1
  simpa [H5ES_two_failed_set] using h

/-- C3: with a valid identifier, close fails with BUSY when the active list
is non-empty and leaves the registry (hence the set and all its records)
unchanged; when the active list is empty, close succeeds and frees the set:
the identifier no longer verifies, so every record of the failed list was
released with it. -/
theorem claim_C3 (reg : H5I_registry) (es_id : Int) (es : H5ES_t)
    (h : H5I_object_verify reg es_id = some es) :
    (es.active ≠ [] → H5ESclose reg es_id = (reg, .error .busy)) ∧
    (es.active = [] →
      H5ESclose reg es_id = (H5I_remove reg es_id, .ok ()) ∧
      H5I_object_verify (H5ESclose reg es_id).1 es_id = none) := by
  constructor
  · intro hne
    have hie : es.active.isEmpty = false := by
      cases hA : es.active with
      | nil => exact absurd hA hne
      | cons a l => rfl
    simp [H5ESclose, h, H5ES__close, hie]
  · intro hemp
    have h1 : H5ESclose reg es_id = (H5I_remove reg es_id, .ok ()) := by
      simp [H5ESclose, h, H5ES__close, hemp]
    refine ⟨h1, ?_⟩
    rw [h1]
    exact H5I_object_verify_remove reg es_id

/-- Event set with one live (in-progress) record, for concrete scenarios. -/
def H5ES_one_live_set : H5ES_t :=
  { active := [H5ES_mk_event 0], failed := [], op_counter := 1,
    err_occurred := false }

/-- Registry holding `H5ES_one_live_set` under identifier 4. -/
def H5ES_one_live_reg : H5I_registry :=
  [((4 : Int), H5I_obj.eventset H5ES_one_live_set)]

/-- Registry holding `H5ES_one_failed_set` (no live records) under
identifier 4. -/
def H5ES_drained_reg : H5I_registry :=
  [((4 : Int), H5I_obj.eventset H5ES_one_failed_set)]

/-- Closed instance of C3: close refuses BUSY on a set with one live
record, and succeeds on a set whose active list is empty, unregistering
the identifier. -/
theorem claim_C3_witness :
    H5ESclose H5ES_one_live_reg 4 = (H5ES_one_live_reg, .error .busy) ∧
    H5ESclose H5ES_drained_reg 4 = (H5I_remove H5ES_drained_reg 4, .ok ()) :=
  ⟨(claim_C3 H5ES_one_live_reg 4 H5ES_one_live_set rfl).1
      (by simp [H5ES_one_live_set]),
   ((claim_C3 H5ES_drained_reg 4 H5ES_one_failed_set rfl).2 rfl).1⟩

/-! ## Claim about counter assignment (append / op_counter) -/

/-- Iterated append assigns the block of counters starting at the set's
current `op_counter`, in order, and advances `op_counter` by the number of
appends. -/
theorem H5ES_append_all_counters (rs : List H5ES_event) : ∀ es : H5ES_t,
    (H5ES_append_all es rs).active.map (fun r => r.counter) =
      es.active.map (fun r => r.counter) ++ List.range' es.op_counter rs.length ∧
    (H5ES_append_all es rs).op_counter = es.op_counter + rs.length := by
  induction rs with
  | nil => intro es; simp [H5ES_append_all]
  | cons r rs ih =>
    intro es
    have step : H5ES_append_all es (r :: rs) = H5ES_append_all (H5ES_append es r) rs := rfl
    rw [step]
    obtain ⟨h1, h2⟩ := ih (H5ES_append es r)
    constructor
    · rw [h1]
      simp [H5ES_append, List.range'_succ]
    · rw [h2]
      simp [H5ES_append]
      omega

/-- C7 (amended): within one event set the counters assigned by successive
appends form the strictly increasing contiguous sequence 0, 1, 2, … — in
particular the first assigned counter is 0, so assigned counters are not
all non-zero — each counter is assigned only once (the sequence has no
duplicates), the wait and error-info engines never change `op_counter`
(so a counter, once assigned, is never reassigned for the set's lifetime),
and get_op_counter returns exactly the value the next append will
assign. -/
theorem claim_C7 :
    (∀ rs : List H5ES_event,
      (H5ES_append_all H5ES__create rs).active.map (fun r => r.counter) =
        List.range rs.length ∧
      ((H5ES_append_all H5ES__create rs).active.map (fun r => r.counter)).Nodup ∧
      List.Pairwise (· < ·)
        ((H5ES_append_all H5ES__create rs).active.map (fun r => r.counter))) ∧
    (∀ (reg : H5I_registry) (es_id : Int) (es : H5ES_t),
      H5I_object_verify reg es_id = some es →
      H5ESget_op_counter reg es_id false = (reg, .ok (some es.op_counter))) ∧
    (∀ (es : H5ES_t) (r : H5ES_event),
      (H5ES_append es r).active.map (fun r => r.counter) =
        es.active.map (fun r => r.counter) ++ [es.op_counter] ∧
      (H5ES_append es r).op_counter = es.op_counter + 1) ∧
    (∀ (es : H5ES_t) (n : Nat),
      (H5ES__get_err_info es n).1.op_counter = es.op_counter) := by
  refine ⟨?_, ?_, ?_, ?_⟩
  · intro rs
    have h := H5ES_append_all_counters rs H5ES__create
    have hr : (H5ES_append_all H5ES__create rs).active.map (fun r => r.counter) =
        List.range rs.length := by
      rw [h.1, List.range_eq_range' rs.length]
      simp [H5ES__create]
    refine ⟨hr, ?_, ?_⟩
    · rw [hr]; exact List.nodup_range rs.length
    · rw [hr]; exact List.pairwise_lt_range rs.length
  · intro reg es_id es h
    simp [H5ESget_op_counter, h]
  · intro es r
    simp [H5ES_append]
  · intro es n
    simp [H5ES__get_err_info]

/-- Counterexample to C7 as stated: the very first append to a fresh event
set assigns the counter 0, which is not a non-zero integer (the claim's
"non-zero" contradicts its own "starting at 0"). -/
theorem claim_C7_counterexample :
    (H5ES_append H5ES__create (H5ES_mk_event 7)).active.map (fun r => r.counter) =
      [0] := rfl

/-- Closed instance of C7: three appends assign 0, 1, 2 in order, and
get_op_counter on a fresh set returns 0, the counter the next append then
assigns. -/
theorem claim_C7_witness :
    (H5ES_append_all H5ES__create
        [H5ES_mk_event 7, H5ES_mk_event 7, H5ES_mk_event 7]).active.map
      (fun r => r.counter) = List.range 3 ∧
    H5ESget_op_counter [((1 : Int), H5I_obj.eventset H5ES__create)] 1 false =
      ([((1 : Int), H5I_obj.eventset H5ES__create)], .ok (some H5ES__create.op_counter)) :=
  ⟨(claim_C7.1 [H5ES_mk_event 7, H5ES_mk_event 7, H5ES_mk_event 7]).1,
   claim_C7.2.1 [((1 : Int), H5I_obj.eventset H5ES__create)] 1 H5ES__create rfl⟩

/-! ## Wait-engine lemmas -/

/-- A sweep never encounters a structural error when the runtime oracle is
total. -/
theorem H5ES_sweep_total (oracle : H5ES_oracle) (i : Nat)
    (htot : ∀ s c, oracle s c ≠ none) :
    ∀ (l : List H5ES_event) (st : H5ES_sweep_st),
      (H5ES_sweep oracle i l st).isSome = true := by
  intro l
  induction l with
  | nil => intro st; rfl
  | cons r rest ih =>
    intro st
    cases ho : oracle i r.counter with
    | none => exact absurd ho (htot i r.counter)
    | some v =>
      obtain ⟨outcome, want⟩ := v
      cases outcome <;> simp only [H5ES_sweep, ho] <;> exact ih _

/-- A sweep conserves the budget: time consumed plus budget left is the
budget it started with, and consumption only grows. -/
theorem H5ES_sweep_budget (oracle : H5ES_oracle) (i : Nat) :
    ∀ (l : List H5ES_event) (st st' : H5ES_sweep_st),
      H5ES_sweep oracle i l st = some st' →
      st'.remaining + st'.consumed = st.remaining + st.consumed ∧
      st.consumed ≤ st'.consumed := by
  intro l
  induction l with
  | nil =>
    intro st st' h
    simp only [H5ES_sweep, Option.some.injEq] at h
    subst h
    omega
  | cons r rest ih =>
    intro st st' h
    cases ho : oracle i r.counter with
    | none => simp [H5ES_sweep, ho] at h
    | some v =>
      obtain ⟨outcome, want⟩ := v
      have hmin : min want st.remaining ≤ st.remaining := Nat.min_le_right _ _
      cases outcome <;> simp only [H5ES_sweep, ho] at h <;>
        obtain ⟨hb1, hb2⟩ := ih _ _ h <;> simp only at hb1 hb2 <;> omega

/-- A sweep that starts with an exhausted budget consumes no time, keeps
the budget at zero, and issues every poll with budget 0. -/
theorem H5ES_sweep_zero (oracle : H5ES_oracle) (i : Nat) :
    ∀ (l : List H5ES_event) (st st' : H5ES_sweep_st),
      H5ES_sweep oracle i l st = some st' → st.remaining = 0 →
      st'.remaining = 0 ∧ st'.consumed = st.consumed ∧
      (∀ p ∈ st'.polls, p ∈ st.polls ∨ p.2 = 0) := by
  intro l
  induction l with
  | nil =>
    intro st st' h hz
    simp only [H5ES_sweep, Option.some.injEq] at h
    subst h
    exact ⟨hz, rfl, fun p hp => Or.inl hp⟩
  | cons r rest ih =>
    intro st st' h hz
    cases ho : oracle i r.counter with
    | none => simp [H5ES_sweep, ho] at h
    | some v =>
      obtain ⟨outcome, want⟩ := v
      cases outcome <;> simp only [H5ES_sweep, ho, hz, Nat.min_zero, Nat.sub_zero,
          Nat.add_zero] at h <;>
        · obtain ⟨h1, h2, h3⟩ := ih _ _ h rfl
          simp only at h1 h2 h3
          refine ⟨h1, h2, fun p hp => ?_⟩
          rcases h3 p hp with hmem | hzero
          · rcases List.mem_append.mp hmem with hmem2 | hmem2
            · exact Or.inl hmem2
            · right
              have := List.mem_singleton.mp hmem2
              subst this
              rfl
          · exact Or.inr hzero

/-- A sweep keeps at most the records it visited plus those already kept. -/
theorem H5ES_sweep_keep_le (oracle : H5ES_oracle) (i : Nat) :
    ∀ (l : List H5ES_event) (st st' : H5ES_sweep_st),
      H5ES_sweep oracle i l st = some st' →
      st'.keep.length ≤ st.keep.length + l.length := by
  intro l
  induction l with
  | nil =>
    intro st st' h
    simp only [H5ES_sweep, Option.some.injEq] at h
    subst h
    simp
  | cons r rest ih =>
    intro st st' h
    cases ho : oracle i r.counter with
    | none => simp [H5ES_sweep, ho] at h
    | some v =>
      obtain ⟨outcome, want⟩ := v
      cases outcome <;> simp only [H5ES_sweep, ho] at h <;>
        · have hb := ih _ _ h
          simp only [List.length_append, List.length_cons, List.length_nil] at hb ⊢
          omega

/-- A sweep that flips `anySucceed` dropped at least one visited record, so
it keeps strictly fewer than everything it saw. -/
theorem H5ES_sweep_keep_lt (oracle : H5ES_oracle) (i : Nat) :
    ∀ (l : List H5ES_event) (st st' : H5ES_sweep_st),
      H5ES_sweep oracle i l st = some st' →
      st.anySucceed = false → st'.anySucceed = true →
      st'.keep.length + 1 ≤ st.keep.length + l.length := by
  intro l
  induction l with
  | nil =>
    intro st st' h hf ht
    simp only [H5ES_sweep, Option.some.injEq] at h
    subst h
    rw [hf] at ht
    exact absurd ht (by simp)
  | cons r rest ih =>
    intro st st' h hf ht
    cases ho : oracle i r.counter with
    | none => simp [H5ES_sweep, ho] at h
    | some v =>
      obtain ⟨outcome, want⟩ := v
      cases outcome
      case in_progress =>
        simp only [H5ES_sweep, ho] at h
        have hb := ih _ _ h (by simp only; exact hf) ht
        simp only [List.length_append, List.length_cons, List.length_nil] at hb ⊢
        omega
      case succeed =>
        simp only [H5ES_sweep, ho] at h
        have hb := H5ES_sweep_keep_le oracle i rest _ _ h
        simp only [List.length_append, List.length_cons, List.length_nil] at hb ⊢
        omega
      case fail =>
        simp only [H5ES_sweep, ho] at h
        have hb := ih _ _ h (by simp only; exact hf) ht
        simp only [List.length_append, List.length_cons, List.length_nil] at hb ⊢
        omega
      case cancel =>
        simp only [H5ES_sweep, ho] at h
        have hb := ih _ _ h (by simp only; exact hf) ht
        simp only [List.length_append, List.length_cons, List.length_nil] at hb ⊢
        omega

/-- The deadline loop never encounters a structural error when the runtime
oracle is total. -/
theorem H5ES_wait_loop_total (oracle : H5ES_oracle)
    (htot : ∀ s c, oracle s c ≠ none) :
    ∀ (fuel : Nat) (es : H5ES_t) (remaining elapsed sweeps : Nat)
      (polls : List (Nat × Nat)) (anyF : Bool),
      (H5ES_wait_loop oracle fuel es remaining elapsed sweeps polls anyF).isSome = true := by
  intro fuel
  induction fuel with
  | zero => intros; rfl
  | succ n ih =>
    intro es remaining elapsed sweeps polls anyF
    cases hsw : H5ES_sweep oracle sweeps es.active
        { keep := [], failedNew := [], remaining := remaining, consumed := 0,
          anyFailed := false, anySucceed := false, polls := polls } with
    | none =>
        have hs := H5ES_sweep_total oracle sweeps htot es.active
          { keep := [], failedNew := [], remaining := remaining, consumed := 0,
            anyFailed := false, anySucceed := false, polls := polls }
        rw [hsw] at hs
        exact absurd hs (by simp)
    | some st =>
        simp only [H5ES_wait_loop, hsw]
        split
        · rfl
        · split
          · rfl
          · split
            · rfl
            · exact ih _ _ _ _ _ _

/-- The loop consumes at most the budget it was given. -/
theorem H5ES_wait_loop_elapsed (oracle : H5ES_oracle) :
    ∀ (fuel : Nat) (es : H5ES_t) (remaining elapsed sweeps : Nat)
      (polls : List (Nat × Nat)) (anyF : Bool) (r : H5ES_wait_result),
      H5ES_wait_loop oracle fuel es remaining elapsed sweeps polls anyF = some r →
      r.elapsed ≤ elapsed + remaining := by
  intro fuel
  induction fuel with
  | zero =>
    intro es remaining elapsed sweeps polls anyF r h
    simp only [H5ES_wait_loop, Option.some.injEq] at h
    subst h
    simp [H5ES_stop]
  | succ n ih =>
    intro es remaining elapsed sweeps polls anyF r h
    cases hsw : H5ES_sweep oracle sweeps es.active
        { keep := [], failedNew := [], remaining := remaining, consumed := 0,
          anyFailed := false, anySucceed := false, polls := polls } with
    | none => rw [H5ES_wait_loop, hsw] at h; exact absurd h (by simp)
    | some st =>
        have hb := H5ES_sweep_budget oracle sweeps es.active _ st hsw
        simp only at hb
        rw [H5ES_wait_loop, hsw] at h
        simp only at h
        split at h
        · injection h with h2
          subst h2
          simp [H5ES_stop]
          omega
        · split at h
          · injection h with h2
            subst h2
            simp [H5ES_stop]
            omega
          · split at h
            · injection h with h2
              subst h2
              simp [H5ES_stop]
              omega
            · have := ih _ _ _ _ _ _ _ h
              omega

/-- The sweep counter reported by the loop never decreases. -/
theorem H5ES_wait_loop_sweeps_mono (oracle : H5ES_oracle) :
    ∀ (fuel : Nat) (es : H5ES_t) (remaining elapsed sweeps : Nat)
      (polls : List (Nat × Nat)) (anyF : Bool) (r : H5ES_wait_result),
      H5ES_wait_loop oracle fuel es remaining elapsed sweeps polls anyF = some r →
      sweeps ≤ r.sweeps := by
  intro fuel
  induction fuel with
  | zero =>
    intro es remaining elapsed sweeps polls anyF r h
    simp only [H5ES_wait_loop, Option.some.injEq] at h
    subst h
    simp [H5ES_stop]
  | succ n ih =>
    intro es remaining elapsed sweeps polls anyF r h
    cases hsw : H5ES_sweep oracle sweeps es.active
        { keep := [], failedNew := [], remaining := remaining, consumed := 0,
          anyFailed := false, anySucceed := false, polls := polls } with
    | none => rw [H5ES_wait_loop, hsw] at h; exact absurd h (by simp)
    | some st =>
        rw [H5ES_wait_loop, hsw] at h
        simp only at h
        split at h
        · injection h with h2; subst h2; simp [H5ES_stop]
        · split at h
          · injection h with h2; subst h2; simp [H5ES_stop]
          · split at h
            · injection h with h2; subst h2; simp [H5ES_stop]
            · have := ih _ _ _ _ _ _ _ h
              omega

/-- With at least one unit of fuel the loop performs at least one sweep. -/
theorem H5ES_wait_loop_sweeps_lb (oracle : H5ES_oracle) :
    ∀ (fuel : Nat) (es : H5ES_t) (remaining elapsed sweeps : Nat)
      (polls : List (Nat × Nat)) (anyF : Bool) (r : H5ES_wait_result),
      H5ES_wait_loop oracle (fuel + 1) es remaining elapsed sweeps polls anyF = some r →
      sweeps < r.sweeps := by
  intro fuel es remaining elapsed sweeps polls anyF r h
  cases hsw : H5ES_sweep oracle sweeps es.active
      { keep := [], failedNew := [], remaining := remaining, consumed := 0,
        anyFailed := false, anySucceed := false, polls := polls } with
  | none => rw [H5ES_wait_loop, hsw] at h; exact absurd h (by simp)
  | some st =>
      rw [H5ES_wait_loop, hsw] at h
      simp only at h
      split at h
      · injection h with h2; subst h2; simp [H5ES_stop]
      · split at h
        · injection h with h2; subst h2; simp [H5ES_stop]
        · split at h
          · injection h with h2; subst h2; simp [H5ES_stop]
          · have := H5ES_wait_loop_sweeps_mono oracle _ _ _ _ _ _ _ _ h
            omega

/-- The loop never changes the operation counter of the event set. -/
theorem H5ES_wait_loop_op_counter (oracle : H5ES_oracle) :
    ∀ (fuel : Nat) (es : H5ES_t) (remaining elapsed sweeps : Nat)
      (polls : List (Nat × Nat)) (anyF : Bool) (r : H5ES_wait_result),
      H5ES_wait_loop oracle fuel es remaining elapsed sweeps polls anyF = some r →
      r.es.op_counter = es.op_counter := by
  intro fuel
  induction fuel with
  | zero =>
    intro es remaining elapsed sweeps polls anyF r h
    simp only [H5ES_wait_loop, Option.some.injEq] at h
    subst h
    simp [H5ES_stop]
  | succ n ih =>
    intro es remaining elapsed sweeps polls anyF r h
    cases hsw : H5ES_sweep oracle sweeps es.active
        { keep := [], failedNew := [], remaining := remaining, consumed := 0,
          anyFailed := false, anySucceed := false, polls := polls } with
    | none => rw [H5ES_wait_loop, hsw] at h; exact absurd h (by simp)
    | some st =>
        rw [H5ES_wait_loop, hsw] at h
        simp only at h
        split at h
        · injection h with h2; subst h2; simp [H5ES_stop]
        · split at h
          · injection h with h2; subst h2; simp [H5ES_stop]
          · split at h
            · injection h with h2; subst h2; simp [H5ES_stop]
            · have h3 := ih _ _ _ _ _ _ _ h
              simpa using h3

/-- With a zero budget the loop consumes no time. -/
theorem H5ES_wait_loop_zero_elapsed (oracle : H5ES_oracle) :
    ∀ (fuel : Nat) (es : H5ES_t) (elapsed sweeps : Nat)
      (polls : List (Nat × Nat)) (anyF : Bool) (r : H5ES_wait_result),
      H5ES_wait_loop oracle fuel es 0 elapsed sweeps polls anyF = some r →
      r.elapsed = elapsed := by
  intro fuel
  induction fuel with
  | zero =>
    intro es elapsed sweeps polls anyF r h
    simp only [H5ES_wait_loop, Option.some.injEq] at h
    subst h
    simp [H5ES_stop]
  | succ n ih =>
    intro es elapsed sweeps polls anyF r h
    cases hsw : H5ES_sweep oracle sweeps es.active
        { keep := [], failedNew := [], remaining := 0, consumed := 0,
          anyFailed := false, anySucceed := false, polls := polls } with
    | none => rw [H5ES_wait_loop, hsw] at h; exact absurd h (by simp)
    | some st =>
        obtain ⟨hz1, hz2, hz3⟩ := H5ES_sweep_zero oracle sweeps es.active _ st hsw rfl
        simp only at hz1 hz2
        rw [H5ES_wait_loop, hsw] at h
        simp only at h
        split at h
        · injection h with h2; subst h2; simp [H5ES_stop]; omega
        · split at h
          · injection h with h2; subst h2; simp [H5ES_stop]; omega
          · split at h
            · injection h with h2; subst h2; simp [H5ES_stop]; omega
            · rw [hz1, hz2] at h
              have h3 := ih _ _ _ _ _ _ h
              omega

/-- With a zero budget every poll issued by the loop has budget 0. -/
theorem H5ES_wait_loop_zero_polls (oracle : H5ES_oracle) :
    ∀ (fuel : Nat) (es : H5ES_t) (elapsed sweeps : Nat)
      (polls : List (Nat × Nat)) (anyF : Bool) (r : H5ES_wait_result),
      H5ES_wait_loop oracle fuel es 0 elapsed sweeps polls anyF = some r →
      ∀ p ∈ r.polls, p ∈ polls ∨ p.2 = 0 := by
  intro fuel
  induction fuel with
  | zero =>
    intro es elapsed sweeps polls anyF r h
    simp only [H5ES_wait_loop, Option.some.injEq] at h
    subst h
    intro p hp
    exact Or.inl hp
  | succ n ih =>
    intro es elapsed sweeps polls anyF r h
    cases hsw : H5ES_sweep oracle sweeps es.active
        { keep := [], failedNew := [], remaining := 0, consumed := 0,
          anyFailed := false, anySucceed := false, polls := polls } with
    | none => rw [H5ES_wait_loop, hsw] at h; exact absurd h (by simp)
    | some st =>
        obtain ⟨hz1, hz2, hz3⟩ := H5ES_sweep_zero oracle sweeps es.active _ st hsw rfl
        simp only at hz1 hz2 hz3
        rw [H5ES_wait_loop, hsw] at h
        simp only at h
        split at h
        · injection h with h2; subst h2
          intro p hp
          exact hz3 p hp
        · split at h
          · injection h with h2; subst h2
            intro p hp
            exact hz3 p hp
          · split at h
            · injection h with h2; subst h2
              intro p hp
              exact hz3 p hp
            · rw [hz1] at h
              intro p hp
              rcases ih _ _ _ _ _ _ h p hp with hmem | hzero
              · exact hz3 p hmem
              · exact Or.inr hzero

/-- With a zero budget the loop performs at most max(1, count(active))
sweeps: it re-sweeps only after a successful completion removed a record. -/
theorem H5ES_wait_loop_zero_sweeps (oracle : H5ES_oracle) :
    ∀ (fuel : Nat) (es : H5ES_t) (elapsed sweeps : Nat)
      (polls : List (Nat × Nat)) (anyF : Bool) (r : H5ES_wait_result),
      H5ES_wait_loop oracle fuel es 0 elapsed sweeps polls anyF = some r →
      r.sweeps ≤ sweeps + max 1 es.active.length := by
  intro fuel
  induction fuel with
  | zero =>
    intro es elapsed sweeps polls anyF r h
    simp only [H5ES_wait_loop, Option.some.injEq] at h
    subst h
    simp [H5ES_stop]
  | succ n ih =>
    intro es elapsed sweeps polls anyF r h
    cases hsw : H5ES_sweep oracle sweeps es.active
        { keep := [], failedNew := [], remaining := 0, consumed := 0,
          anyFailed := false, anySucceed := false, polls := polls } with
    | none => rw [H5ES_wait_loop, hsw] at h; exact absurd h (by simp)
    | some st =>
        obtain ⟨hz1, hz2, hz3⟩ := H5ES_sweep_zero oracle sweeps es.active _ st hsw rfl
        simp only at hz1 hz2
        rw [H5ES_wait_loop, hsw] at h
        simp only at h
        split at h
        · injection h with h2; subst h2; simp [H5ES_stop]
        · split at h
          · injection h with h2; subst h2; simp [H5ES_stop]
          · split at h
            · injection h with h2; subst h2; simp [H5ES_stop]
            · rename_i hc1 hc2 hc3
              rw [hz1] at h
              have hsucc : st.anySucceed = true := by
                rw [hz1] at hc3
                simp at hc3
                exact hc3
              have hlt := H5ES_sweep_keep_lt oracle sweeps es.active _ st hsw rfl hsucc
              simp only [List.length_nil, Nat.zero_add] at hlt
              have hke : st.keep ≠ [] := by
                intro hnil
                simp [hnil] at hc2
              have hk1 : 1 ≤ st.keep.length := by
                cases hkp : st.keep with
                | nil => exact absurd hkp hke
                | cons a l => simp
              have h3 := ih _ _ _ _ _ _ h
              simp only at h3
              omega

/-- With a zero budget and fuel exceeding the active-list length the loop
reaches one of its stop conditions (it does not run out of fuel). -/
theorem H5ES_wait_loop_zero_finished (oracle : H5ES_oracle) :
    ∀ (fuel : Nat) (es : H5ES_t) (elapsed sweeps : Nat)
      (polls : List (Nat × Nat)) (anyF : Bool) (r : H5ES_wait_result),
      H5ES_wait_loop oracle fuel es 0 elapsed sweeps polls anyF = some r →
      es.active.length < fuel → r.finished = true := by
  intro fuel
  induction fuel with
  | zero =>
    intro es elapsed sweeps polls anyF r h hlen
    exact absurd hlen (by omega)
  | succ n ih =>
    intro es elapsed sweeps polls anyF r h hlen
    cases hsw : H5ES_sweep oracle sweeps es.active
        { keep := [], failedNew := [], remaining := 0, consumed := 0,
          anyFailed := false, anySucceed := false, polls := polls } with
    | none => rw [H5ES_wait_loop, hsw] at h; exact absurd h (by simp)
    | some st =>
        obtain ⟨hz1, hz2, hz3⟩ := H5ES_sweep_zero oracle sweeps es.active _ st hsw rfl
        simp only at hz1 hz2
        rw [H5ES_wait_loop, hsw] at h
        simp only at h
        split at h
        · injection h with h2; subst h2; simp [H5ES_stop]
        · split at h
          · injection h with h2; subst h2; simp [H5ES_stop]
          · split at h
            · injection h with h2; subst h2; simp [H5ES_stop]
            · rename_i hc1 hc2 hc3
              rw [hz1] at h
              have hsucc : st.anySucceed = true := by
                rw [hz1] at hc3
                simp at hc3
                exact hc3
              have hlt := H5ES_sweep_keep_lt oracle sweeps es.active _ st hsw rfl hsucc
              simp only [List.length_nil, Nat.zero_add] at hlt
              have h3 := ih _ _ _ _ _ _ h
              simp only at h3
              exact h3 (by omega)

/-! ## Claims about the wait engine -/

/-- Event set with two in-progress records (counters 0 and 1). -/
def H5ES_pair_set : H5ES_t :=
  { active := [H5ES_mk_event 0, H5ES_mk_event 1], failed := [],
    op_counter := 2, err_occurred := false }

/-- Runtime for the shared-budget example of the `H5ESwait` source comment:
the first record completes after 4 ns on the first sweep, every other poll
stays in progress and would happily consume 99 ns. -/
def H5ES_doc_oracle : H5ES_oracle :=
  fun s c => some (if s = 0 && c = 0 then (.succeed, 4) else (.in_progress, 99))

/-- Runtime where the first record succeeds instantly on the first sweep
and the second stays in progress forever. -/
def H5ES_cex_oracle : H5ES_oracle :=
  fun s c => some (if s = 0 && c = 0 then H5ES_op_status.succeed else .in_progress, 0)

/-- Runtime where every poll stays in progress and asks for no time. -/
def H5ES_idle_oracle : H5ES_oracle :=
  fun _ _ => some (.in_progress, 0)

/-- C2 (amended): the timeout is a single shared budget consumed across all
records of the event set, not a per-operation allowance — the engine's
total elapsed time never exceeds the timeout, and (closed example, from the
source comment) with timeout 10 a first poll consuming 4 leaves only 6 for
the next record.  A wait with timeout 0 never blocks: it consumes no time
and issues every poll with budget 0; it performs at least one and at most
max(1, count(active)) non-blocking sweeps of the active list — not always
exactly one, because a record succeeding at zero budget triggers one more
sweep of the remainder — and always reaches a stop condition. -/
theorem claim_C2 (es : H5ES_t) (t : Nat) (oracle : H5ES_oracle)
    (r : H5ES_wait_result) (h : H5ES__wait es t oracle = some r) :
    r.elapsed ≤ t ∧
    (t = 0 →
      r.elapsed = 0 ∧ (∀ p ∈ r.polls, p.2 = 0) ∧ 1 ≤ r.sweeps ∧
      r.sweeps ≤ max 1 es.active.length ∧ r.finished = true) ∧
    (H5ES__wait H5ES_pair_set 10 H5ES_doc_oracle).map
        (fun q => (q.polls, q.elapsed)) = some ([(0, 10), (1, 6), (1, 0)], 10) := by
  refine ⟨?_, ?_, by rfl⟩
  · have h1 := H5ES_wait_loop_elapsed oracle _ _ _ _ _ _ _ _ h
    simpa using h1
  · intro ht
    subst ht
    refine ⟨H5ES_wait_loop_zero_elapsed oracle _ _ _ _ _ _ _ h, ?_, ?_, ?_, ?_⟩
    · intro p hp
      rcases H5ES_wait_loop_zero_polls oracle _ _ _ _ _ _ _ h p hp with hmem | hz
      · exact absurd hmem (List.not_mem_nil p)
      · exact hz
    · exact H5ES_wait_loop_sweeps_lb oracle _ _ _ _ _ _ _ _ h
    · simpa using H5ES_wait_loop_zero_sweeps oracle _ _ _ _ _ _ _ h
    · exact H5ES_wait_loop_zero_finished oracle _ _ _ _ _ _ _ h (by omega)

/-- Counterexample to C2 as stated: on a set of two active records, with
timeout 0 and a runtime whose first record succeeds instantly, the engine
performs 2 sweeps and 3 polls — the surviving record is polled twice — not
"exactly one poll sweep of the active list" (it still never blocks:
elapsed time is 0). -/
theorem claim_C2_counterexample :
    (H5ES__wait H5ES_pair_set 0 H5ES_cex_oracle).map
        (fun q => (q.sweeps, q.polls.length, q.elapsed)) = some (2, 3, 0) ∧
    H5ES_pair_set.active.length = 2 := ⟨rfl, rfl⟩

/-- Engine outcome of a zero-timeout wait on `H5ES_pair_set` under the
always-in-progress runtime: one sweep, both polls at budget 0, no time
consumed. -/
def H5ES_idle_result : H5ES_wait_result :=
  { es := H5ES_pair_set, num_in_progress := 2, op_failed := false,
    elapsed := 0, sweeps := 1, polls := [(0, 0), (1, 0)], finished := true }

/-- Closed instance of C2 (amended) at timeout 0 under the
always-in-progress runtime. -/
theorem claim_C2_witness :
    H5ES__wait H5ES_pair_set 0 H5ES_idle_oracle = some H5ES_idle_result ∧
    H5ES_idle_result.elapsed = 0 ∧ (∀ p ∈ H5ES_idle_result.polls, p.2 = 0) ∧
    1 ≤ H5ES_idle_result.sweeps ∧ H5ES_idle_result.finished = true := by
  have h : H5ES__wait H5ES_pair_set 0 H5ES_idle_oracle = some H5ES_idle_result := by rfl
  have h2 := (claim_C2 H5ES_pair_set 0 H5ES_idle_oracle H5ES_idle_result h).2.1 rfl
  exact ⟨h, h2.1, h2.2.1, h2.2.2.1, h2.2.2.2.2⟩

/-- Registry holding `H5ES_pair_set` (two live operations) under
identifier 3. -/
def H5ES_pair_reg : H5I_registry :=
  [((3 : Int), H5I_obj.eventset H5ES_pair_set)]

/-- Runtime where every poll fails instantly. -/
def H5ES_allfail_oracle : H5ES_oracle :=
  fun _ _ => some (.fail, 0)

/-- C1: the return code of wait does not report per-operation failures.
With a valid identifier, non-NULL out-pointers and a runtime that answers
every poll, the call succeeds no matter how the operations complete —
(closed instance) it returns success with op_failed = true even when every
operation in the set failed — and any failing return is one of: BAD_HANDLE
with an invalid identifier, BAD_VALUE with a NULL out-pointer, or
CANT_WAIT when the wait engine itself could not execute because of a
structural runtime error. -/
theorem claim_C1 (reg : H5I_registry) (es_id : Int) (es : H5ES_t) (t : Nat)
    (oracle : H5ES_oracle)
    (h : H5I_object_verify reg es_id = some es)
    (htot : ∀ s c, oracle s c ≠ none) :
    (∃ reg2 out, H5ESwait reg es_id t false false oracle = (reg2, .ok out)) ∧
    (∀ (reg' : H5I_registry) (id' : Int) (t' : Nat) (b1 b2 : Bool)
        (oracle' : H5ES_oracle) (e : H5ES_err),
      (H5ESwait reg' id' t' b1 b2 oracle').2 = .error e →
      (e = H5ES_err.badHandle ∧ H5I_object_verify reg' id' = none) ∨
      (e = H5ES_err.badValue ∧ (b1 = true ∨ b2 = true)) ∨
      (e = H5ES_err.cantWait ∧ ∃ es2, H5I_object_verify reg' id' = some es2 ∧
        H5ES__wait es2 t' oracle' = none)) ∧
    (H5ESwait H5ES_pair_reg 3 0 false false H5ES_allfail_oracle).2 = .ok (0, true) := by
  refine ⟨?_, ?_, by rfl⟩
  · have hw := H5ES_wait_loop_total oracle htot (t + es.active.length + 1) es t 0 0 [] false
    cases hr : H5ES__wait es t oracle with
    | none =>
        unfold H5ES__wait at hr
        rw [hr] at hw
        exact absurd hw (by simp)
    | some r =>
        exact ⟨H5I_update reg es_id r.es, (r.num_in_progress, r.op_failed),
          by simp [H5ESwait, h, hr]⟩
  · intro reg' id' t' b1 b2 oracle' e he
    cases hv : H5I_object_verify reg' id' with
    | none =>
        left
        refine ⟨?_, rfl⟩
        simp [H5ESwait, hv] at he
        exact he.symm
    | some es2 =>
        cases b1 with
        | true =>
            right; left
            refine ⟨?_, Or.inl rfl⟩
            simp [H5ESwait, hv] at he
            exact he.symm
        | false =>
            cases b2 with
            | true =>
                right; left
                refine ⟨?_, Or.inr rfl⟩
                simp [H5ESwait, hv] at he
                exact he.symm
            | false =>
                cases hw2 : H5ES__wait es2 t' oracle' with
                | none =>
                    right; right
                    refine ⟨?_, es2, rfl, hw2⟩
                    simp [H5ESwait, hv, hw2] at he
                    exact he.symm
                | some r2 =>
                    simp [H5ESwait, hv, hw2] at he

/-- Closed instance of C1: with a valid identifier, non-NULL out-pointers
and a runtime that always answers (in progress), wait returns success. -/
theorem claim_C1_witness :
    ∃ reg2 out,
      H5ESwait H5ES_pair_reg 3 0 false false H5ES_idle_oracle = (reg2, .ok out) :=
  (claim_C1 H5ES_pair_reg 3 H5ES_pair_set 0 H5ES_idle_oracle rfl
    (fun s c => by simp [H5ES_idle_oracle])).1

/-! ## Claim about the error-info drain -/

/-- Event set with three failed records (counters 0, 1, 2) and the error
flag latched — the S5 scenario of the design document. -/
def H5ES_s5_set : H5ES_t :=
  { active := [],
    failed := [{ H5ES_mk_event 0 with status := .fail },
               { H5ES_mk_event 1 with status := .fail },
               { H5ES_mk_event 2 with status := .fail }],
    op_counter := 3, err_occurred := true }

/-- Registry holding `H5ES_s5_set` under identifier 7. -/
def H5ES_s5_reg : H5I_registry :=
  [((7 : Int), H5I_obj.eventset H5ES_s5_set)]

/-- Registry after draining 2 of the 3 failed records. -/
def H5ES_s5_step1 : H5I_registry :=
  (H5ESget_err_info H5ES_s5_reg 7 2 false false).1

/-- Registry after additionally draining the last failed record. -/
def H5ES_s5_step2 : H5I_registry :=
  (H5ESget_err_info H5ES_s5_step1 7 1 false false).1

/-- C6: after get_err_info drains failed records, the error flag ends up
FALSE exactly when every failed record was drained (the cleared count
equals the failed count before the call, is positive, and no failed record
remains); a partial drain leaves it TRUE.  Closed S5 scenario: with 3
failed records, draining 2 reports cleared=2, err_status TRUE, err_count 1;
draining the last reports cleared=1, err_status FALSE, err_count 0. -/
theorem claim_C6 (es : H5ES_t) (num : Nat) (h : es.err_occurred = true) :
    ((H5ES__get_err_info es num).1.err_occurred = false ↔
      ((H5ES__get_err_info es num).2.2 = es.failed.length ∧
       0 < (H5ES__get_err_info es num).2.2 ∧
       (H5ES__get_err_info es num).1.failed = [])) ∧
    ((H5ESget_err_info H5ES_s5_reg 7 2 false false).2.toOption.map
        (fun p => p.2) = some 2) ∧
    ((H5ESget_err_status H5ES_s5_step1 7 false).2 = .ok (some true)) ∧
    ((H5ESget_err_count H5ES_s5_step1 7 false).2 = .ok (some 1)) ∧
    ((H5ESget_err_info H5ES_s5_step1 7 1 false false).2.toOption.map
        (fun p => p.2) = some 1) ∧
    ((H5ESget_err_status H5ES_s5_step2 7 false).2 = .ok (some false)) ∧
    ((H5ESget_err_count H5ES_s5_step2 7 false).2 = .ok (some 0)) := by
  refine ⟨?_, rfl, rfl, rfl, rfl, rfl, rfl⟩
  simp only [H5ES__get_err_info]
  split
  · rename_i hc
    simp only [eq_self_iff_true, true_iff]
    exact hc
  · rename_i hc
    rw [h]
    simp only [Bool.true_eq_false, false_iff]
    exact hc

/-- Closed instance of C6: draining all three failed records of the S5 set
in one call clears the error flag. -/
theorem claim_C6_witness :
    (H5ES__get_err_info H5ES_s5_set 3).1.err_occurred = false :=
  ((claim_C6 H5ES_s5_set 3 rfl).1).mpr ⟨rfl, by decide, rfl⟩
